import Mathlib

/-!
Verification development for the Walmart sales analysis service.

The definitions below are a shallow embedding of the repository's two core
modules:

* `app/services/analytics.py` — `Analytics.get_time_series_data`,
  `Analytics.get_product_analysis`, `Analytics.get_customer_analysis`;
* `app/services/data_processor.py` — `DataProcessor.clean_dataframe`,
  `DataProcessor.validate_dataframe`, `DataProcessor.process_sales_data`,
  `DataProcessor.get_sales_metrics`.

Python/pandas floats are modelled as exact rationals extended with the IEEE
special values `inf`, `-inf` and `nan` (`PFloat`); the special values only
arise here through division by zero and through pandas' `rolling`/`pct_change`
missing-value conventions, which the embedding reproduces explicitly.
Dates are day numbers (`ℕ`); a resampling interval is modelled as a monotone
bucket-assignment map `ℕ → ℕ` on day numbers (`fun d => d` is interval `'D'`).
Fallible operations return `Except Unit`.
-/

namespace WalmartSales

/-! ### A model of Python/pandas floating-point cells -/

/-- A pandas cell value: an exact finite number, `inf`, `-inf`, or `NaN`
(pandas' notion of a null/missing float). -/
inductive PFloat where
  | fin (q : ℚ)
  | inf
  | negInf
  | nan
deriving DecidableEq, Repr

/-- IEEE addition restricted to the cases that arise here. -/
def PFloat.add : PFloat → PFloat → PFloat
  | .nan, _ => .nan
  | _, .nan => .nan
  | .fin a, .fin b => .fin (a + b)
  | .inf, .negInf => .nan
  | .negInf, .inf => .nan
  | .inf, _ => .inf
  | _, .inf => .inf
  | .negInf, _ => .negInf
  | _, .negInf => .negInf

/-- Division of a pandas value by a positive count (used for means). -/
def PFloat.divNat : PFloat → ℕ → PFloat
  | .fin a, n => if n = 0 then .nan else .fin (a / (n : ℚ))
  | .inf, n => if n = 0 then .nan else .inf
  | .negInf, n => if n = 0 then .nan else .negInf
  | .nan, _ => .nan

/-- `Series.isna` of a float cell. -/
def PFloat.isna : PFloat → Bool
  | .nan => true
  | _ => false

/-- Whether a float cell reprs as a plain numeric literal: `nan`, `inf`
and `-inf` repr as bare names instead. -/
def PFloat.isFinite : PFloat → Bool
  | .fin _ => true
  | _ => false

/-- Multiplication by the positive constant 100 (`* 100` on the series). -/
def PFloat.mul100 : PFloat → PFloat
  | .fin a => .fin (a * 100)
  | x => x

/-- IEEE division of finite floats: a zero denominator yields `inf`/`-inf`/`nan`
according to the sign of the numerator, exactly as numpy does. -/
def pyDiv (a b : ℚ) : PFloat :=
  if b = 0 then (if 0 < a then .inf else if a < 0 then .negInf else .nan)
  else .fin (a / b)

/-- Mean of a list of rationals (`sum/len`; only used on nonempty lists,
`ratMean [] = 0` by `0/0 = 0` in `ℚ`). -/
def ratMean (xs : List ℚ) : ℚ := xs.sum / (xs.length : ℚ)

/-- `Series.mean()` with pandas' default `skipna=True`: `NaN` entries are
dropped; the mean of an empty (or all-`NaN`) series is `NaN`. -/
def pdMean (xs : List PFloat) : PFloat :=
  let ys := xs.filter (fun x => !x.isna)
  if ys.isEmpty then .nan
  else (ys.foldl PFloat.add (.fin 0)).divNat ys.length

/-- First occurrences of each distinct element, in order (the key order of a
`groupby`, and `drop_duplicates(keep='first')`). -/
def distinctKeys {α : Type} [DecidableEq α] (xs : List α) : List α :=
  xs.foldl (fun acc x => if x ∈ acc then acc else acc ++ [x]) []

/-! ### Derived series of `get_time_series_data`
`analytics.py` line 70: `df_resampled['total_sales'].pct_change() * 100`;
line 71: `df_resampled['total_sales'].rolling(window=7).mean()`. -/

/-- `Series.pct_change()` on a series with no missing values:
entry 0 is `NaN`; entry `t` is `(v[t] - v[t-1]) / v[t-1]` with IEEE
zero-denominator behaviour (`inf` / `-inf` / `nan`). -/
def pctChange (vs : List ℚ) : List PFloat :=
  (List.range vs.length).map fun t =>
    if t = 0 then .nan
    else pyDiv (vs.getD t 0 - vs.getD (t - 1) 0) (vs.getD (t - 1) 0)

/-- The `growth_rate` column: `pct_change() * 100`. -/
def growthRate (vs : List ℚ) : List PFloat :=
  (pctChange vs).map PFloat.mul100

/-- The `rolling_avg` column: `rolling(window=7).mean()`. With pandas'
default `min_periods = window`, every index below 6 is `NaN`; from index 6
on it is the exact mean of the trailing 7 entries. -/
def rollingAvg (vs : List ℚ) : List PFloat :=
  (List.range vs.length).map fun i =>
    if 6 ≤ i then .fin (ratMean ((vs.take (i + 1)).drop (i - 6)))
    else .nan

/-! ### The ledger data model (`app/models/database.py`, class `Sale`),
restricted to the columns the analysis queries read. -/

/-- A canonical ledger record (`Sale`). `rating` is nullable in the schema. -/
structure Sale where
  invoice_id : String
  branch : String
  city : String
  customer_type : String
  gender : String
  product_line : String
  unit_price : ℚ
  quantity : ℤ
  total : ℚ
  date : ℕ
  time : String
  payment : String
  rating : Option ℚ
deriving DecidableEq, Repr

/-- The optional `Sale.date >= start_date` / `Sale.date <= end_date` filters
shared by all analysis queries. -/
def scopeFilter (s e : Option ℕ) (ledger : List Sale) : List Sale :=
  (ledger.filter fun r =>
      match s with
      | some a => decide (a ≤ r.date)
      | none => true).filter fun r =>
    match e with
    | some b => decide (r.date ≤ b)
    | none => true

/-! ### `Analytics.get_time_series_data` (pure computation) -/

/-- One row of the resampled frame returned by `get_time_series_data`. -/
structure TSRow where
  date : ℕ
  total_sales : ℚ
  transaction_count : ℕ
  average_order_value : ℚ
  total_quantity : ℤ
  growth_rate : PFloat
  rolling_avg : PFloat
deriving DecidableEq, Repr

/-- The summary dict built at lines 74–84 of `analytics.py`. -/
structure TSSummary where
  total_sales : ℚ
  avg_daily_sales : ℚ
  max_daily_sales : ℚ
  min_daily_sales : ℚ
  total_transactions : ℕ
  avg_transactions_per_day : ℚ
  avg_order_value : ℚ
  total_quantity : ℤ
  avg_growth_rate : PFloat
deriving DecidableEq, Repr

/-- Return value of `get_time_series_data`: the resampled rows and the
summary. The empty-scope early return `(pd.DataFrame(), {})` is modelled as
`⟨[], none⟩` — an empty frame and an *empty* summary dict (no fields). -/
structure TSOutput where
  rows : List TSRow
  summary : Option TSSummary
deriving DecidableEq, Repr

/-- The filtered rows falling in resampling bucket `b`. -/
def bucketSales (fs : List Sale) (bucketOf : ℕ → ℕ) (b : ℕ) : List Sale :=
  fs.filter (fun r => decide (bucketOf r.date = b))

/-- Daily `avg(total)` values for the dates (with data) in bucket `b` — the
SQL query groups by date with `avg(Sale.total)`, and resampling takes the
`'mean'` of those daily values inside each bucket. -/
def dailyAvgs (fs : List Sale) (bucketOf : ℕ → ℕ) (b : ℕ) : List ℚ :=
  (distinctKeys ((bucketSales fs bucketOf b).map (·.date))).map fun d =>
    ratMean ((fs.filter (fun r => decide (r.date = d))).map (·.total))

/-- Pure computation of `Analytics.get_time_series_data` (lines 41–95 of
`analytics.py`): date-grouped SQL aggregates, resampled into buckets
(`'sum'` for volumes, `'mean'` for the rate metric, `fillna(0)`), plus the
`growth_rate`/`rolling_avg` columns and the summary dict.  An empty scope
returns `⟨[], none⟩` via the `df.empty` early return at lines 57–58. -/
def computeTS (ledger : List Sale) (s e : Option ℕ) (bucketOf : ℕ → ℕ) : TSOutput :=
  let fs := scopeFilter s e ledger
  if fs.isEmpty then ⟨[], none⟩
  else
    let dates := fs.map (·.date)
    let dmin := dates.foldl min (dates.headD 0)
    let dmax := dates.foldl max 0
    let buckets := (List.range (bucketOf dmax + 1 - bucketOf dmin)).map (· + bucketOf dmin)
    let totals := buckets.map (fun b => ((bucketSales fs bucketOf b).map (·.total)).sum)
    let counts := buckets.map (fun b => (bucketSales fs bucketOf b).length)
    let quants := buckets.map (fun b => ((bucketSales fs bucketOf b).map (·.quantity)).sum)
    let aovs := buckets.map (fun b =>
      let ds := dailyAvgs fs bucketOf b
      if ds.isEmpty then 0 else ratMean ds)
    let growth := growthRate totals
    let roll := rollingAvg totals
    let rows := (List.range buckets.length).map fun i =>
      { date := buckets.getD i 0
        total_sales := totals.getD i 0
        transaction_count := counts.getD i 0
        average_order_value := aovs.getD i 0
        total_quantity := quants.getD i 0
        growth_rate := growth.getD i .nan
        rolling_avg := roll.getD i .nan : TSRow }
    let summary : TSSummary :=
      { total_sales := totals.sum
        avg_daily_sales := ratMean totals
        max_daily_sales := totals.foldl max (totals.headD 0)
        min_daily_sales := totals.foldl min (totals.headD 0)
        total_transactions := counts.sum
        avg_transactions_per_day := ratMean (counts.map (fun n => (n : ℚ)))
        avg_order_value := ratMean aovs
        total_quantity := quants.sum
        avg_growth_rate := pdMean growth }
    ⟨rows, some summary⟩

/-! ### The cache collaborator

`redis_client.exists` / `get` / `setex` are modelled as an interface of
fallible operations.  The service caches `str(payload)` and reads it back
through `eval(cached_data)`.  Whether that read can succeed depends on the
payload's repr: the product/customer analysis dicts and the ingestion
result dict repr as literals `eval` can rebuild (strings, ints, finite
floats, `None`, dicts, lists), so for them `eval(str(x)) = x` exactly; the
time-series payload, however, reprs its resampled datetime index as
`Timestamp('…')` objects and any non-finite float (such as
`growth_rate[0]`, which is always NaN) as the bare token `nan`/`inf` —
names that are not bound in the module globals `eval` receives in
`analytics.py` — so evaluating it raises `NameError`.  Serialization is a
payload-carrying wrapper; deserialization is exact for the literal-only
payloads (`evalBytes`) and fallible for the time-series payload
(`evalTSBytes`). -/

/-- The serialized form `str(payload)` stored in redis. -/
structure Bytes (α : Type) where
  data : α
deriving DecidableEq, Repr

/-- `str(payload)` (serialization into cache bytes). -/
def strBytes {α : Type} (x : α) : Bytes α := ⟨x⟩

/-- `eval(cached_data)` for payloads whose repr consists solely of
literals `eval` can rebuild in any namespace — the product/customer
analysis dicts and the ingestion result dict (strings, ints, finite
floats, `None`, dicts, lists).  For these the round trip is exact. -/
def evalBytes {α : Type} (b : Bytes α) : α := b.data

/-- Whether `eval` can resolve every token of `str(payload)` for a
time-series payload: each record dict reprs its `date` as
`Timestamp('…')` (the resampled datetime index), so any payload with at
least one row — every payload the code ever caches, since the empty-scope
result returns before the cache write — fails; and a non-finite
`avg_growth_rate` in the summary reprs as a bare `nan`/`inf` token.
`Timestamp`, `nan` and `inf` are all unbound in `analytics.py`'s globals. -/
def tsEvalOk (o : TSOutput) : Bool :=
  o.rows.isEmpty &&
    (match o.summary with
     | none => true
     | some s => s.avg_growth_rate.isFinite)

/-- `eval(cached_data)` for the time-series payload: raises `NameError`
unless the repr happens to contain only resolvable literals. -/
def evalTSBytes (b : Bytes TSOutput) : Except Unit TSOutput :=
  if tsEvalOk b.data then .ok b.data else .error ()

/-- The redis client interface used by the services: each call can raise. -/
structure CacheIO (α : Type) where
  existsQ : String → Except Unit Bool
  getQ : String → Except Unit (Bytes α)
  setexQ : String → ℕ → Bytes α → Except Unit Unit

/-- A cache entry as redis holds it: key, stored bytes, absolute expiry. -/
structure CacheEntry (α : Type) where
  key : String
  value : Bytes α
  expiry : ℕ
deriving DecidableEq, Repr

/-- State of a live (non-failing) redis backend. -/
structure CacheState (α : Type) where
  entries : List (CacheEntry α)
deriving DecidableEq, Repr

/-- The entry currently stored under `k`, if any. -/
def CacheState.lookup {α : Type} (st : CacheState α) (k : String) :
    Option (CacheEntry α) :=
  st.entries.find? (fun en => en.key = k)

/-- `EXISTS k` at time `now`: redis treats a key past its expiry as absent. -/
def CacheState.existsAt {α : Type} (st : CacheState α) (now : ℕ) (k : String) : Bool :=
  match st.lookup k with
  | some en => decide (now < en.expiry)
  | none => false

/-- `GET k` at time `now` (`none` models redis returning nil). -/
def CacheState.getAt {α : Type} (st : CacheState α) (now : ℕ) (k : String) :
    Option (Bytes α) :=
  match st.lookup k with
  | some en => if now < en.expiry then some en.value else none
  | none => none

/-- `SETEX k ttl v` at time `now`: stores `v` under `k` with expiry
`now + ttl`, replacing any previous entry for `k`. -/
def CacheState.setex {α : Type} (st : CacheState α) (now ttl : ℕ) (k : String)
    (v : Bytes α) : CacheState α :=
  ⟨⟨k, v, now + ttl⟩ :: st.entries.filter (fun en => en.key ≠ k)⟩

/-- The `CacheIO` view of a live backend at time `now`.  `getQ` of an absent
or expired key returns nil, and `eval(None)` raises, hence `.error`. -/
def backendOf {α : Type} (st : CacheState α) (now : ℕ) : CacheIO α :=
  { existsQ := fun k => .ok (st.existsAt now k)
    getQ := fun k =>
      match st.getAt now k with
      | some v => .ok v
      | none => .error ()
    setexQ := fun _ _ _ => .ok () }

/-- A cache backend on which every operation raises. -/
def failingCache (α : Type) : CacheIO α :=
  { existsQ := fun _ => .error ()
    getQ := fun _ => .error ()
    setexQ := fun _ _ _ => .error () }

/-- `Analytics.get_time_series_data` with its cache layer (lines 33–99).
The whole body sits in one `try`; the `except` clause logs and re-`raise`s,
so any cache failure surfaces as `.error`.  On a hit the cached bytes are
`eval`ed with no ledger query — and since every payload this function ever
caches carries a `Timestamp`-bearing row, that `eval` raises `NameError`,
which the `except` clause re-raises.  On a miss the result is computed;
the empty-scope early return happens *before* the cache write, so empty
results are never cached; a nonempty result is stored with
`setex(key, 1 hour, str(payload))`.  The writes performed are returned
alongside the payload. -/
def get_time_series_data (c : CacheIO TSOutput) (ledger : List Sale)
    (s e : Option ℕ) (bucketOf : ℕ → ℕ) (cacheKey : Option String) :
    Except Unit (TSOutput × List (String × ℕ × Bytes TSOutput)) :=
  let body : Except Unit (TSOutput × List (String × ℕ × Bytes TSOutput)) :=
    if (scopeFilter s e ledger).isEmpty then .ok (⟨[], none⟩, [])
    else
      let out := computeTS ledger s e bucketOf
      match cacheKey with
      | some k =>
        match c.setexQ k 3600 (strBytes out) with
        | .error _ => .error ()
        | .ok _ => .ok (out, [(k, 3600, strBytes out)])
      | none => .ok (out, [])
  match cacheKey with
  | some k =>
    match c.existsQ k with
    | .error _ => .error ()
    | .ok true =>
      match c.getQ k with
      | .error _ => .error ()
      | .ok b =>
        match evalTSBytes b with
        | .error _ => .error ()
        | .ok out => .ok (out, [])
    | .ok false => body
  | none => body

/-! ### `Analytics.get_product_analysis` -/

/-- A row of the grouped SQL result (lines 117–132): per `product_line`,
`sum(total)`, `sum(quantity)`, `avg(unit_price)`, `count(id)`,
`avg(rating)` (SQL `AVG` ignores nulls and is null over an all-null group). -/
structure ProdSQLRow where
  product_line : String
  total_sales : ℚ
  total_quantity : ℤ
  avg_price : ℚ
  transaction_count : ℕ
  avg_rating : Option ℚ
deriving DecidableEq, Repr

/-- A `products` entry of the analysis dict (lines 137–145). -/
structure ProductRow where
  product_line : String
  total_sales : ℚ
  total_quantity : ℤ
  avg_price : ℚ
  transaction_count : ℕ
  avg_rating : Option ℚ
  sales_per_transaction : ℚ
deriving DecidableEq, Repr

/-- The `summary` section of the product analysis (lines 148–154). -/
structure ProductSummary where
  total_products : ℕ
  total_sales : ℚ
  total_quantity : ℤ
  avg_price : ℚ
  total_transactions : ℕ
deriving DecidableEq, Repr

structure ProductAnalysis where
  products : List ProductRow
  summary : ProductSummary
deriving DecidableEq, Repr

/-- SQL `AVG` over the non-null values of a column: null when no value. -/
def sqlAvgOpt (xs : List ℚ) : Option ℚ :=
  if xs.isEmpty then none else some (ratMean xs)

/-- Python truthiness applied to a nullable float:
`float(x) if x else None` maps both `None` and `0.0` to `None`. -/
def truthyFloat (x : Option ℚ) : Option ℚ :=
  match x with
  | none => none
  | some v => if v = 0 then none else some v

/-- The grouped SQL result of the product query over a filtered scope. -/
def prodSQLRows (fs : List Sale) : List ProdSQLRow :=
  (distinctKeys (fs.map (·.product_line))).map fun pl =>
    let g := fs.filter (fun r => decide (r.product_line = pl))
    { product_line := pl
      total_sales := (g.map (·.total)).sum
      total_quantity := (g.map (·.quantity)).sum
      avg_price := ratMean (g.map (·.unit_price))
      transaction_count := g.length
      avg_rating := sqlAvgOpt (g.filterMap (·.rating)) }

/-- Line 137–145 of `analytics.py`: one `products` entry from one SQL row.
`avg_rating` is `float(r.avg_rating) if r.avg_rating else None`;
`sales_per_transaction` is `total/count if count else 0`. -/
def productRowOf (r : ProdSQLRow) : ProductRow :=
  { product_line := r.product_line
    total_sales := r.total_sales
    total_quantity := r.total_quantity
    avg_price := r.avg_price
    transaction_count := r.transaction_count
    avg_rating := truthyFloat r.avg_rating
    sales_per_transaction :=
      if r.transaction_count = 0 then 0
      else r.total_sales / (r.transaction_count : ℚ) }

/-- Pure computation of `Analytics.get_product_analysis` (lines 116–166). -/
def get_product_analysis (ledger : List Sale) (s e : Option ℕ) : ProductAnalysis :=
  let results := prodSQLRows (scopeFilter s e ledger)
  { products := results.map productRowOf
    summary :=
      { total_products := results.length
        total_sales := (results.map (·.total_sales)).sum
        total_quantity := (results.map (·.total_quantity)).sum
        avg_price :=
          if results.isEmpty then 0
          else (results.map (·.avg_price)).sum / (results.length : ℚ)
        total_transactions := (results.map (·.transaction_count)).sum } }

/-! ### `Analytics.get_customer_analysis` -/

/-- A row of the grouped SQL result (lines 188–204): per
`(customer_type, gender)` group. -/
structure CustSQLRow where
  customer_type : String
  gender : String
  transaction_count : ℕ
  total_spent : ℚ
  avg_order_value : ℚ
  unique_visits : ℕ
  avg_rating : Option ℚ
deriving DecidableEq, Repr

/-- A `customers` entry of the analysis dict (lines 209–218). -/
structure CustomerRow where
  customer_type : String
  gender : String
  transaction_count : ℕ
  total_spent : ℚ
  avg_order_value : ℚ
  unique_visits : ℕ
  avg_rating : Option ℚ
  visit_frequency : ℚ
deriving DecidableEq, Repr

/-- The `summary` section of the customer analysis (lines 221–227). -/
structure CustomerSummary where
  total_customers : ℕ
  total_transactions : ℕ
  total_revenue : ℚ
  avg_order_value : ℚ
  avg_rating : ℚ
deriving DecidableEq, Repr

structure CustomerAnalysis where
  customers : List CustomerRow
  summary : CustomerSummary
deriving DecidableEq, Repr

/-- The grouped SQL result of the customer query over a filtered scope. -/
def custSQLRows (fs : List Sale) : List CustSQLRow :=
  (distinctKeys (fs.map (fun r => (r.customer_type, r.gender)))).map fun k =>
    let g := fs.filter (fun r => decide (r.customer_type = k.1 ∧ r.gender = k.2))
    { customer_type := k.1
      gender := k.2
      transaction_count := g.length
      total_spent := (g.map (·.total)).sum
      avg_order_value := ratMean (g.map (·.total))
      unique_visits := (distinctKeys (g.map (·.invoice_id))).length
      avg_rating := sqlAvgOpt (g.filterMap (·.rating)) }

/-- Lines 209–218 of `analytics.py`: one `customers` entry from one SQL row.
`avg_rating` is `float(r.avg_rating) if r.avg_rating else None`;
`visit_frequency` is `count/unique_visits if unique_visits else 0`. -/
def customerRowOf (r : CustSQLRow) : CustomerRow :=
  { customer_type := r.customer_type
    gender := r.gender
    transaction_count := r.transaction_count
    total_spent := r.total_spent
    avg_order_value := r.avg_order_value
    unique_visits := r.unique_visits
    avg_rating := truthyFloat r.avg_rating
    visit_frequency :=
      if r.unique_visits = 0 then 0
      else (r.transaction_count : ℚ) / (r.unique_visits : ℚ) }

/-- Pure computation of `Analytics.get_customer_analysis` (lines 187–239).
The summary's `avg_rating` uses the raw SQL values: `float(r.avg_rating or 0)`
maps a null group rating to 0. -/
def get_customer_analysis (ledger : List Sale) (s e : Option ℕ) : CustomerAnalysis :=
  let results := custSQLRows (scopeFilter s e ledger)
  { customers := results.map customerRowOf
    summary :=
      { total_customers :=
          (distinctKeys (results.map (fun r => (r.customer_type, r.gender)))).length
        total_transactions := (results.map (·.transaction_count)).sum
        total_revenue := (results.map (·.total_spent)).sum
        avg_order_value :=
          if results.isEmpty then 0
          else (results.map (·.avg_order_value)).sum / (results.length : ℚ)
        avg_rating :=
          if results.isEmpty then 0
          else (results.map (fun r => r.avg_rating.getD 0)).sum / (results.length : ℚ) } }

/-- `Analytics.get_product_analysis` with its cache layer (lines 109–170):
same `try`/`except`-`raise` shape as the time-series operation, but the
result is always cached on a miss (no empty early return). -/
def get_product_analysis_cached (c : CacheIO ProductAnalysis)
    (ledger : List Sale) (s e : Option ℕ) (cacheKey : Option String) :
    Except Unit ProductAnalysis :=
  let body : Except Unit ProductAnalysis :=
    let out := get_product_analysis ledger s e
    match cacheKey with
    | some k =>
      match c.setexQ k 3600 (strBytes out) with
      | .error _ => .error ()
      | .ok _ => .ok out
    | none => .ok out
  match cacheKey with
  | some k =>
    match c.existsQ k with
    | .error _ => .error ()
    | .ok true =>
      match c.getQ k with
      | .error _ => .error ()
      | .ok b => .ok (evalBytes b)
    | .ok false => body
  | none => body

/-- `Analytics.get_customer_analysis` with its cache layer (lines 180–243). -/
def get_customer_analysis_cached (c : CacheIO CustomerAnalysis)
    (ledger : List Sale) (s e : Option ℕ) (cacheKey : Option String) :
    Except Unit CustomerAnalysis :=
  let body : Except Unit CustomerAnalysis :=
    let out := get_customer_analysis ledger s e
    match cacheKey with
    | some k =>
      match c.setexQ k 3600 (strBytes out) with
      | .error _ => .error ()
      | .ok _ => .ok out
    | none => .ok out
  match cacheKey with
  | some k =>
    match c.existsQ k with
    | .error _ => .error ()
    | .ok true =>
      match c.getQ k with
      | .error _ => .error ()
      | .ok b => .ok (evalBytes b)
    | .ok false => body
  | none => body

/-! ### `DataProcessor.clean_dataframe` (`data_processor.py`, lines 55–94)

A raw cell of a numeric column is missing (`NaN`), a number, or a
non-numeric string (which `pd.to_numeric(errors='coerce')` turns into `NaN`).
Column names are taken as already lower-cased; `date` cells are either
missing or a valid day number (an unparsable date string would make
`pd.to_datetime` raise, which no claim exercises).  The batch records which
derivable columns are present: `dropna(subset=[...'total'...])` raises
`KeyError` when the `total` column does not exist, and the
`gross_income`/`cogs` derivations fire only when the whole column is
absent.  The `gross_margin_percentage`, `rating` and text columns are
assumed present (per-row nullable). -/

/-- A raw value of a numeric column. -/
inductive RawCell where
  | missing
  | num (q : ℚ)
  | str (s : String)
deriving DecidableEq, Repr

/-- `pd.to_numeric(x, errors='coerce')` on one cell. -/
def coerceNum : RawCell → Option ℚ
  | .num q => some q
  | _ => none

/-- One raw input row (field-name → raw-value mapping). -/
structure RawRow where
  invoice_id : Option String
  branch : String
  city : String
  customer_type : String
  gender : String
  product_line : String
  unit_price : RawCell
  quantity : RawCell
  total : RawCell
  date : Option ℕ
  time : String
  payment : String
  gross_margin_percentage : Option ℚ
  gross_income : Option ℚ
  cogs : Option ℚ
  rating : Option ℚ
deriving DecidableEq, Repr

/-- A raw batch: the rows plus which derivable columns exist in the frame. -/
structure RawBatch where
  rows : List RawRow
  hasTotalCol : Bool
  hasGrossIncomeCol : Bool
  hasCogsCol : Bool
deriving Repr

/-- A cleaned row.  Numeric cells are `Option ℚ` (`none` is `NaN`, which
coercion and the `NaN`-propagating derivations can produce). -/
structure CleanRow where
  invoice_id : String
  branch : String
  city : String
  customer_type : String
  gender : String
  product_line : String
  unit_price : Option ℚ
  quantity : Option ℚ
  total : Option ℚ
  date : ℕ
  time : String
  payment : String
  gross_margin_percentage : Option ℚ
  gross_income : Option ℚ
  cogs : Option ℚ
  rating : Option ℚ
deriving DecidableEq, Repr

/-- `NaN`-propagating multiplication of nullable floats. -/
def optMul (a b : Option ℚ) : Option ℚ :=
  match a, b with
  | some x, some y => some (x * y)
  | _, _ => none

/-- `NaN`-propagating subtraction of nullable floats. -/
def optSub (a b : Option ℚ) : Option ℚ :=
  match a, b with
  | some x, some y => some (x - y)
  | _, _ => none

/-- `NaN`-propagating division of a nullable float by 100. -/
def optDiv100 (a : Option ℚ) : Option ℚ :=
  match a with
  | some x => some (x / 100)
  | none => none

/-- The per-row part of `clean_dataframe` after full-row de-duplication:
`dropna(subset=['invoice_id','total','date'])` removes the row (→ `none`)
when any of the three is missing; then the numeric columns are coerced;
`total` is derived as `unit_price * quantity` only where the *coerced*
total is `NaN` (i.e. a present but non-numeric cell — a missing total was
already dropped); `gross_income` and `cogs` are derived only when their
column is absent from the batch. -/
def cleanRowOf (hasGI hasCogs : Bool) (r : RawRow) : Option CleanRow :=
  match r.invoice_id, r.date with
  | some iid, some d =>
    match r.total with
    | .missing => none
    | t =>
      let up := coerceNum r.unit_price
      let qty := coerceNum r.quantity
      let tot :=
        match coerceNum t with
        | some v => some v
        | none => optMul up qty
      let gi :=
        if hasGI then r.gross_income
        else optDiv100 (optMul tot (r.gross_margin_percentage))
      let cg := if hasCogs then r.cogs else optSub tot gi
      some
        { invoice_id := iid, branch := r.branch, city := r.city
          customer_type := r.customer_type, gender := r.gender
          product_line := r.product_line
          unit_price := up, quantity := qty, total := tot
          date := d, time := r.time, payment := r.payment
          gross_margin_percentage := r.gross_margin_percentage
          gross_income := gi, cogs := cg, rating := r.rating }
  | _, _ => none

/-- `DataProcessor.clean_dataframe`: full-row `drop_duplicates` (first
occurrence kept), then `dropna` on `invoice_id`/`total`/`date`, coercion and
derivation.  When the `total` column is absent, `dropna(subset=['total'])`
raises `KeyError` (caught and re-raised by the method's `except`). -/
def cleanDataframe (df : RawBatch) : Except Unit (List CleanRow) :=
  if df.hasTotalCol then
    .ok ((distinctKeys df.rows).filterMap
      (cleanRowOf df.hasGrossIncomeCol df.hasCogsCol))
  else .error ()

/-! ### `DataProcessor.validate_dataframe` (lines 25–53)

Each great-expectations check is embedded with its documented semantics:
`expect_column_values_to_be_between` and `..._to_match_regex` skip null
values; `mostly=0.95` succeeds when at least 95% of the non-null values
pass; dates are valid by construction after cleaning. -/

/-- The regex `^([0-1]?[0-9]|2[0-3]):[0-5][0-9]$` on a time string. -/
def validTime (s : String) : Bool :=
  match s.toList with
  | [a, b, c, d, e] =>
    ((a == '0' || a == '1') && b.isDigit || a == '2' && decide ('0' ≤ b ∧ b ≤ '3'))
      && c == ':' && decide ('0' ≤ d ∧ d ≤ '5') && e.isDigit
  | [a, b, c, d] => a.isDigit && b == ':' && decide ('0' ≤ c ∧ c ≤ '5') && d.isDigit
  | _ => false

/-- `expect_column_values_to_be_between(col, lo, None)`: every non-null
value is `≥ lo`. -/
def allNonNullAtLeast (xs : List (Option ℚ)) (lo : ℚ) : Bool :=
  xs.all fun x =>
    match x with
    | none => true
    | some v => decide (lo ≤ v)

/-- The validation result dict: the named expectations and the overall
`success` conjunction. -/
structure ValidationResults where
  invoice_id_unique : Bool
  unit_price_positive : Bool
  quantity_positive : Bool
  total_positive : Bool
  date_valid : Bool
  time_valid : Bool
  rating_range : Bool
  success : Bool
deriving DecidableEq, Repr

/-- `DataProcessor.validate_dataframe` over cleaned rows. -/
def validateDataframe (rows : List CleanRow) : ValidationResults :=
  let uniq := decide (rows.map (·.invoice_id)).Nodup
  let up := allNonNullAtLeast (rows.map (·.unit_price)) 0
  let qty := allNonNullAtLeast (rows.map (·.quantity)) 1
  let tot := allNonNullAtLeast (rows.map (·.total)) 0
  let dv := true
  let tv := rows.all (fun r => validTime r.time)
  let rs := rows.filterMap (·.rating)
  let rr :=
    if rs.isEmpty then true
    else decide (19 * rs.length ≤
      20 * (rs.filter (fun v => decide (0 ≤ v ∧ v ≤ 10))).length)
  { invoice_id_unique := uniq
    unit_price_positive := up
    quantity_positive := qty
    total_positive := tot
    date_valid := dv
    time_valid := tv
    rating_range := rr
    success := uniq && up && qty && tot && dv && tv && rr }

/-! ### `DataProcessor.process_sales_data` (lines 96–167) -/

/-- A persisted ledger record, as built at lines 121–138 (`Sale(...)` with
`float(...)` conversions — `NaN` passes through `float` — and
`int(row['quantity'])`, which raises on `NaN`). -/
structure SaleRec where
  invoice_id : String
  branch : String
  city : String
  customer_type : String
  gender : String
  product_line : String
  unit_price : Option ℚ
  quantity : ℤ
  total : Option ℚ
  date : ℕ
  time : String
  payment : String
  cogs : Option ℚ
  gross_margin_percentage : Option ℚ
  gross_income : Option ℚ
  rating : Option ℚ
deriving DecidableEq, Repr

/-- Python `int()` on a float: truncation toward zero. -/
def pyInt (q : ℚ) : ℤ := q.num.tdiv (q.den : ℤ)

/-- One `Sale(...)` constructor call: raises (`ValueError`) when
`int(row['quantity'])` is applied to `NaN`. -/
def toSaleRec (r : CleanRow) : Except Unit SaleRec :=
  match r.quantity with
  | none => .error ()
  | some q =>
    .ok
      { invoice_id := r.invoice_id, branch := r.branch, city := r.city
        customer_type := r.customer_type, gender := r.gender
        product_line := r.product_line
        unit_price := r.unit_price, quantity := pyInt q, total := r.total
        date := r.date, time := r.time, payment := r.payment
        cogs := r.cogs, gross_margin_percentage := r.gross_margin_percentage
        gross_income := r.gross_income, rating := r.rating }

/-- The loop at lines 119–139: the full list of ORM objects is built before
any database call; an exception on any row aborts the whole batch. -/
def convertRows : List CleanRow → Except Unit (List SaleRec)
  | [] => .ok []
  | r :: rs =>
    match toSaleRec r with
    | .error _ => .error ()
    | .ok s =>
      match convertRows rs with
      | .error _ => .error ()
      | .ok ss => .ok (s :: ss)

/-- The SQLAlchemy session: committed rows plus the pending (flushed but
uncommitted) buffer of the open transaction. -/
structure DB where
  committed : List SaleRec
  pending : List SaleRec
deriving DecidableEq, Repr

/-- `db.bulk_save_objects(...)`: stages records in the open transaction. -/
def DB.bulkSaveObjects (db : DB) (rs : List SaleRec) : DB :=
  { db with pending := db.pending ++ rs }

/-- `db.commit()`: makes the pending records durable. -/
def DB.commit (db : DB) : DB :=
  ⟨db.committed ++ db.pending, []⟩

/-- `db.rollback()`: discards the pending records; already-committed rows
are untouched (a rollback after a successful commit is a no-op). -/
def DB.rollback (db : DB) : DB :=
  { db with pending := [] }

/-- Return value of `process_sales_data`: the validation-failure dict
(line 116) or the success dict (lines 158–162). -/
inductive ProcResult where
  | invalid (v : ValidationResults)
  | ok (records_processed : ℕ) (v : ValidationResults)
deriving DecidableEq, Repr

/-- The post-cache-probe flow of `process_sales_data` (lines 110–167):
clean; validate (failure returns the validation dict with nothing
written); convert rows; `bulk_save_objects` + `commit` (a commit failure,
modelled by `commitFails`, hits the `except` → rollback, nothing
persisted).  When a `cache_key` is given, the cache-store step at line 149
evaluates `timedelta(hours=24)` — but `timedelta` is not imported in
`data_processor.py`, so a `NameError` is raised *after* the commit: the
records stay persisted and the call still fails. -/
def process_sales_body (df : RawBatch) (db : DB) (commitFails : Bool)
    (cacheKey : Option String) : Except Unit ProcResult × DB :=
  match cleanDataframe df with
  | .error _ => (.error (), db.rollback)
  | .ok rows =>
    let v := validateDataframe rows
    if v.success then
      match convertRows rows with
      | .error _ => (.error (), db.rollback)
      | .ok recs =>
        let db1 := db.bulkSaveObjects recs
        if commitFails then (.error (), db1.rollback)
        else
          let db2 := db1.commit
          match cacheKey with
          | some _ => (.error (), db2.rollback)
          | none => (.ok (.ok recs.length v), db2)
    else (.ok (.invalid v), db)

/-- `DataProcessor.process_sales_data` (lines 96–167): the cache probe
(any cache error → `except` → rollback and re-raise; a hit returns the
`eval` of the stored bytes with no processing) followed by the main flow. -/
def processSalesData (cache : CacheIO ProcResult) (df : RawBatch) (db : DB)
    (commitFails : Bool) (cacheKey : Option String) :
    Except Unit ProcResult × DB :=
  match cacheKey with
  | some k =>
    match cache.existsQ k with
    | .error _ => (.error (), db.rollback)
    | .ok true =>
      match cache.getQ k with
      | .error _ => (.error (), db.rollback)
      | .ok b => (.ok (evalBytes b), db)
    | .ok false => process_sales_body df db commitFails cacheKey
  | none => process_sales_body df db commitFails cacheKey

/-! ### `DataProcessor.get_sales_metrics` (lines 169–255) -/

/-- The `overall` section of the metrics dict (lines 216–221), with its
`or 0` null-guards. -/
structure OverallMetrics where
  total_sales : ℚ
  total_transactions : ℕ
  average_order_value : ℚ
  total_quantity : ℤ
deriving DecidableEq, Repr

/-- A `products` entry of the metrics dict (lines 222–230). -/
structure ProductMetric where
  product_line : String
  total_sales : ℚ
  total_quantity : ℤ
  avg_price : ℚ
deriving DecidableEq, Repr

/-- A `customers` entry of the metrics dict (lines 231–239). -/
structure CustomerMetric where
  customer_type : String
  transaction_count : ℕ
  total_sales : ℚ
  avg_order_value : ℚ
deriving DecidableEq, Repr

/-- The metrics dict returned by `get_sales_metrics`. -/
structure SalesMetrics where
  overall : OverallMetrics
  products : List ProductMetric
  customers : List CustomerMetric
deriving DecidableEq, Repr

/-- `DataProcessor.get_sales_metrics`.  `data_processor.py` never imports
`sqlalchemy.func`, so the query construction at line 192 raises `NameError`
on every cache miss; the `except` clause re-raises it.  Only a cache hit
can return a value (the `eval` of the stored bytes). -/
def get_sales_metrics (cache : CacheIO SalesMetrics) (ledger : List Sale)
    (s e : Option ℕ) (cacheKey : Option String) : Except Unit SalesMetrics :=
  match cacheKey with
  | some k =>
    match cache.existsQ k with
    | .error _ => .error ()
    | .ok true =>
      match cache.getQ k with
      | .error _ => .error ()
      | .ok b => .ok (evalBytes b)
    | .ok false => .error ()
  | none => .error ()

/-! ### Concrete inputs used by the counterexamples and witnesses -/

/-- A ledger record with the given invoice id, day number and total. -/
def mkSale (iid : String) (d : ℕ) (tot : ℚ) : Sale :=
  { invoice_id := iid, branch := "A", city := "Yangon"
    customer_type := "Member", gender := "Female", product_line := "Health"
    unit_price := 1, quantity := 1, total := tot, date := d
    time := "10:00", payment := "Cash", rating := some 5 }

/-- Two buckets with totals `[0, 20]`: day 0 sells a zero-total ticket,
day 1 sells 20. -/
def c1Ledger : List Sale := [mkSale "I1" 0 0, mkSale "I2" 1 20]

/-- A single bucket with total `20`. -/
def c4Ledger : List Sale := [mkSale "I1" 0 20]

/-- One sale on day 5 — outside the scope `[10, 20]`. -/
def c5Ledger : List Sale := [mkSale "I1" 5 20]

/-- One sale on day 5 — queried with `start_date = 10 > end_date = 2`. -/
def c9Ledger : List Sale := [mkSale "I1" 5 20]

/-- One sale, for exercising the cache layer. -/
def c2Ledger : List Sale := [mkSale "I1" 0 10]

/-- An empty live cache backend (every operation succeeds). -/
def emptyCacheState (α : Type) : CacheState α := ⟨[]⟩

/-! ### Helper lemmas -/

section

/- Batteries marks rational arithmetic `@[irreducible]`; the concrete
evaluations below need it to reduce. -/
attribute [local semireducible] Rat.add Rat.mul Rat.inv Rat.sub

/-- Reading back a list built by indexing over `List.range`. -/
theorem getD_range_map {α : Type} (f : ℕ → α) (n t : ℕ) (ht : t < n) (d : α) :
    ((List.range n).map f).getD t d = f t := by
  rw [List.getD_eq_getElem?_getD, List.getElem?_map, List.getElem?_range ht]
  rfl

/-- `growthRate` entry `t ≥ 1` in terms of the bucket totals. -/
theorem growthRate_getD (vs : List ℚ) (t : ℕ) (ht1 : 1 ≤ t) (ht : t < vs.length) :
    (growthRate vs).getD t .nan =
      (pyDiv (vs.getD t 0 - vs.getD (t - 1) 0) (vs.getD (t - 1) 0)).mul100 := by
  unfold growthRate pctChange
  rw [List.map_map]
  rw [getD_range_map _ _ _ ht]
  simp only [List.getD_eq_getElem?_getD, Function.comp_apply]
  rw [if_neg (by omega : ¬ t = 0)]

/-! ### Claim C1 — growth rate at a zero-valued previous bucket -/

/-- C1 (counterexample): over the bucket totals `[0, 20]` the time-series
operation produces `growth_rate = [NaN, +inf]`: at `t = 1` the preceding
bucket's value is exactly `0`, yet the entry is the infinite value `inf`,
not null — `pct_change` divides by zero instead of yielding null. -/
theorem C1_counterexample :
    ((computeTS c1Ledger none none (fun d => d)).rows.map (·.total_sales) = [0, 20]) ∧
    ((computeTS c1Ledger none none (fun d => d)).rows.map (·.growth_rate) =
      [PFloat.nan, PFloat.inf]) ∧
    PFloat.inf.isna = false := by
  refine ⟨by decide, by decide, rfl⟩

/-- C1 (amended): for `t ≥ 1`, `growth_rate[t]` equals
`(value[t]-value[t-1])/value[t-1] × 100` whenever `value[t-1] ≠ 0`; when
`value[t-1] = 0` the entry is `+inf` (if `value[t] > 0`), `-inf` (if
`value[t] < 0`), or null (only if `value[t] = 0` too) — an infinite value,
never an exception, and null only in the `0/0` case. -/
theorem C1_growth_rate (vs : List ℚ) (t : ℕ) (ht1 : 1 ≤ t) (ht : t < vs.length) :
    (vs.getD (t - 1) 0 ≠ 0 →
      (growthRate vs).getD t .nan =
        .fin ((vs.getD t 0 - vs.getD (t - 1) 0) / vs.getD (t - 1) 0 * 100)) ∧
    (vs.getD (t - 1) 0 = 0 →
      (growthRate vs).getD t .nan =
        if 0 < vs.getD t 0 then .inf
        else if vs.getD t 0 < 0 then .negInf
        else .nan) := by
  rw [growthRate_getD vs t ht1 ht]
  constructor
  · intro h
    rw [pyDiv, if_neg h]
    rfl
  · intro h
    rw [pyDiv, if_pos h, h, sub_zero]
    split
    · rfl
    · split
      · rfl
      · rfl

/-- C1 (witness): at `vs = [5, 10]`, `t = 1` the nonzero branch gives
`fin 100`; at `vs = [0, 20]`, `t = 1` the zero branch gives `inf`. -/
theorem C1_witness :
    (growthRate [5, 10]).getD 1 .nan = .fin 100 ∧
    (growthRate [0, 20]).getD 1 .nan = .inf := by
  constructor
  · have h := (C1_growth_rate [5, 10] 1 (by decide) (by decide)).1 (by decide)
    rw [h]
    norm_num
  · have h := (C1_growth_rate [0, 20] 1 (by decide) (by decide)).2 (by decide)
    rw [h]
    norm_num

/-! ### Claim C4 — the rolling average near the series start -/

/-- C4 (counterexample): a one-bucket series has `rolling_avg = [NaN]`:
with `rolling(window=7)` (default `min_periods = window`) the first six
indices are null, not the mean of the shorter prefix (which here would be
`fin 20`). -/
theorem C4_counterexample :
    (computeTS c4Ledger none none (fun d => d)).rows.map (·.rolling_avg) =
      [PFloat.nan] ∧
    PFloat.nan ≠ PFloat.fin 20 := ⟨by decide, by decide⟩

/-- C4 (amended): `rolling_avg[i]` is null for `i < 6`; for `i ≥ 6` it is the
exact mean of the trailing 7 buckets `i-6 … i` (a window drawn entirely from
`vs.take (i+1)`, so later buckets are never incorporated). -/
theorem C4_rolling_avg (vs : List ℚ) (i : ℕ) (hi : i < vs.length) :
    (6 ≤ i →
      (rollingAvg vs).getD i .nan = .fin (ratMean ((vs.take (i + 1)).drop (i - 6))) ∧
      ((vs.take (i + 1)).drop (i - 6)).length = 7) ∧
    (i < 6 → (rollingAvg vs).getD i .nan = .nan) := by
  unfold rollingAvg
  rw [getD_range_map _ _ _ hi]
  constructor
  · intro h6
    refine ⟨by rw [if_pos h6], ?_⟩
    rw [List.length_drop, List.length_take]
    omega
  · intro h6
    rw [if_neg (by omega)]

/-- C4 (witness): on `[1,…,7]` index 6 is `fin 4` (the 7-bucket mean); on
`[1, 2]` index 0 is null. -/
theorem C4_witness :
    (rollingAvg [1, 2, 3, 4, 5, 6, 7]).getD 6 .nan = .fin 4 ∧
    (rollingAvg [1, 2]).getD 0 .nan = .nan := by
  constructor
  · have h := ((C4_rolling_avg [1, 2, 3, 4, 5, 6, 7] 6 (by decide)).1 (by decide)).1
    rw [h]
    norm_num [ratMean]
  · exact (C4_rolling_avg [1, 2] 0 (by decide)).2 (by decide)

/-! ### Empty-scope helper lemmas (shared by C5 and C9) -/

/-- Empty scope: the `df.empty` early return of `get_time_series_data`. -/
theorem computeTS_of_empty (ledger : List Sale) (s e : Option ℕ)
    (bucketOf : ℕ → ℕ) (h : scopeFilter s e ledger = []) :
    computeTS ledger s e bucketOf = ⟨[], none⟩ := by
  unfold computeTS
  rw [h]
  rfl

/-- Empty scope: the product analysis over zero groups. -/
theorem product_analysis_of_empty (ledger : List Sale) (s e : Option ℕ)
    (h : scopeFilter s e ledger = []) :
    get_product_analysis ledger s e = ⟨[], ⟨0, 0, 0, 0, 0⟩⟩ := by
  unfold get_product_analysis
  rw [h]
  rfl

/-- Empty scope: the customer analysis over zero groups. -/
theorem customer_analysis_of_empty (ledger : List Sale) (s e : Option ℕ)
    (h : scopeFilter s e ledger = []) :
    get_customer_analysis ledger s e = ⟨[], ⟨0, 0, 0, 0, 0⟩⟩ := by
  unfold get_customer_analysis
  rw [h]
  rfl

/-- A reversed scope (`end < start`) filters every record out. -/
theorem scopeFilter_reversed (ledger : List Sale) (a b : ℕ) (hba : b < a) :
    scopeFilter (some a) (some b) ledger = [] := by
  unfold scopeFilter
  rw [List.filter_eq_nil_iff]
  intro r hr
  have h1 : decide (a ≤ r.date) = true := (List.mem_filter.mp hr).2
  simp only [decide_eq_true_eq] at h1 ⊢
  omega

/-! ### Claim C5 — empty scope results -/

/-- C5 (counterexample): on a scope matching no rows the time-series
operation returns an empty frame and an *empty* summary dict (`none`) — not
a summary whose fields are zero; and `get_sales_metrics` raises on every
cache miss (`sqlalchemy.func` is never imported in `data_processor.py`),
with or without a cache key, so "never raises" fails as well. -/
theorem C5_counterexample :
    computeTS c5Ledger (some 10) (some 20) (fun d => d) = ⟨[], none⟩ ∧
    get_sales_metrics (backendOf (emptyCacheState SalesMetrics) 0) c5Ledger
      (some 10) (some 20) none = .error () ∧
    get_sales_metrics (backendOf (emptyCacheState SalesMetrics) 0) c5Ledger
      (some 10) (some 20) (some "metrics") = .error () :=
  ⟨by decide, rfl, rfl⟩

/-- C5 (amended): for a scope matching no ledger rows, the time-series
operation returns an empty frame with an empty (field-less) summary; the
product and customer analyses return all-zero summaries with empty group
lists; none of the three raises. `get_sales_metrics`, however, raises
(`NameError`) instead of returning its zero-guarded metrics dict. -/
theorem C5_empty_scope (ledger : List Sale) (s e : Option ℕ)
    (bucketOf : ℕ → ℕ) (cm : CacheIO SalesMetrics)
    (h : scopeFilter s e ledger = []) :
    computeTS ledger s e bucketOf = ⟨[], none⟩ ∧
    get_product_analysis ledger s e = ⟨[], ⟨0, 0, 0, 0, 0⟩⟩ ∧
    get_customer_analysis ledger s e = ⟨[], ⟨0, 0, 0, 0, 0⟩⟩ ∧
    get_sales_metrics cm ledger s e none = .error () :=
  ⟨computeTS_of_empty ledger s e bucketOf h,
   product_analysis_of_empty ledger s e h,
   customer_analysis_of_empty ledger s e h, rfl⟩

/-- C5 (witness): the empty scope `[10, 20]` over `c5Ledger`. -/
theorem C5_witness :
    get_product_analysis c5Ledger (some 10) (some 20) = ⟨[], ⟨0, 0, 0, 0, 0⟩⟩ ∧
    get_customer_analysis c5Ledger (some 10) (some 20) = ⟨[], ⟨0, 0, 0, 0, 0⟩⟩ := by
  have h := C5_empty_scope c5Ledger (some 10) (some 20) (fun d => d)
    (backendOf (emptyCacheState SalesMetrics) 0) (by decide)
  exact ⟨h.2.1, h.2.2.1⟩

/-! ### Claim C9 — no `AggregationError` for reversed scopes -/

/-- C9 (counterexample): a request with `start_date = 10 > end_date = 2`
over a nonempty ledger is answered with the ordinary empty-scope result
(`.ok`) — no `AggregationError` (no such exception type exists anywhere in
the repository) and no rejection. -/
theorem C9_counterexample :
    get_time_series_data (backendOf (emptyCacheState TSOutput) 0) c9Ledger
      (some 10) (some 2) (fun d => d) none = .ok (⟨[], none⟩, []) := rfl

/-- C9 (amended): the aggregation operations never raise a typed scope
error: a scope whose `end_date` precedes its `start_date` matches no rows
and is answered with the empty-scope result of each operation. -/
theorem C9_reversed_scope_answered (ledger : List Sale) (c : CacheIO TSOutput)
    (bucketOf : ℕ → ℕ) (a b : ℕ) (hba : b < a) :
    scopeFilter (some a) (some b) ledger = [] ∧
    get_time_series_data c ledger (some a) (some b) bucketOf none =
      .ok (⟨[], none⟩, []) ∧
    get_product_analysis ledger (some a) (some b) = ⟨[], ⟨0, 0, 0, 0, 0⟩⟩ ∧
    get_customer_analysis ledger (some a) (some b) = ⟨[], ⟨0, 0, 0, 0, 0⟩⟩ := by
  have h := scopeFilter_reversed ledger a b hba
  refine ⟨h, ?_, product_analysis_of_empty ledger _ _ h,
    customer_analysis_of_empty ledger _ _ h⟩
  unfold get_time_series_data
  rw [h]
  rfl

/-- C9 (witness): the reversed scope `start = 10, end = 2` on `c9Ledger`. -/
theorem C9_witness :
    scopeFilter (some 10) (some 2) c9Ledger = [] ∧
    get_product_analysis c9Ledger (some 10) (some 2) = ⟨[], ⟨0, 0, 0, 0, 0⟩⟩ := by
  have h := C9_reversed_scope_answered c9Ledger
    (backendOf (emptyCacheState TSOutput) 0) (fun d => d) 10 2 (by decide)
  exact ⟨h.1, h.2.2.1⟩

/-! ### Claim C2 — cache backend errors are fatal, not fail-open -/

/-- C2 (counterexample): with a failing cache backend and a cache key, the
time-series, product and customer operations all raise (`.error`) instead
of degrading to direct computation — although the very same call without a
cache key returns the computed payload, so the computation itself was
available. -/
theorem C2_counterexample :
    get_time_series_data (failingCache TSOutput) c2Ledger none none
      (fun d => d) (some "ts") = .error () ∧
    get_time_series_data (failingCache TSOutput) c2Ledger none none
      (fun d => d) none =
      .ok (computeTS c2Ledger none none (fun d => d), []) ∧
    get_product_analysis_cached (failingCache ProductAnalysis) c2Ledger
      none none (some "pa") = .error () ∧
    get_customer_analysis_cached (failingCache CustomerAnalysis) c2Ledger
      none none (some "ca") = .error () :=
  ⟨rfl, rfl, rfl, rfl⟩

/-- C2 (amended): in all three analysis operations, an error raised by any
cache backend call (`exists`, `get`, or `setex`) while a cache key is
supplied is re-raised to the caller (the `except` clause logs and
`raise`s): the operation fails instead of falling back to the directly
computed payload.  In the `setex` case the payload had already been
computed and is discarded. -/
theorem C2_cache_error_propagates (ct : CacheIO TSOutput)
    (cp : CacheIO ProductAnalysis) (cc : CacheIO CustomerAnalysis)
    (ledger : List Sale) (s e : Option ℕ) (bucketOf : ℕ → ℕ) (k : String) :
    (ct.existsQ k = .error () →
      get_time_series_data ct ledger s e bucketOf (some k) = .error ()) ∧
    (ct.existsQ k = .ok true → ct.getQ k = .error () →
      get_time_series_data ct ledger s e bucketOf (some k) = .error ()) ∧
    (ct.existsQ k = .ok false → (scopeFilter s e ledger).isEmpty = false →
      ct.setexQ k 3600 (strBytes (computeTS ledger s e bucketOf)) = .error () →
      get_time_series_data ct ledger s e bucketOf (some k) = .error ()) ∧
    (cp.existsQ k = .error () →
      get_product_analysis_cached cp ledger s e (some k) = .error ()) ∧
    (cp.existsQ k = .ok true → cp.getQ k = .error () →
      get_product_analysis_cached cp ledger s e (some k) = .error ()) ∧
    (cp.existsQ k = .ok false →
      cp.setexQ k 3600 (strBytes (get_product_analysis ledger s e)) = .error () →
      get_product_analysis_cached cp ledger s e (some k) = .error ()) ∧
    (cc.existsQ k = .error () →
      get_customer_analysis_cached cc ledger s e (some k) = .error ()) ∧
    (cc.existsQ k = .ok true → cc.getQ k = .error () →
      get_customer_analysis_cached cc ledger s e (some k) = .error ()) ∧
    (cc.existsQ k = .ok false →
      cc.setexQ k 3600 (strBytes (get_customer_analysis ledger s e)) = .error () →
      get_customer_analysis_cached cc ledger s e (some k) = .error ()) := by
  refine ⟨?_, ?_, ?_, ?_, ?_, ?_, ?_, ?_, ?_⟩
  · intro h1
    simp [get_time_series_data, h1]
  · intro h1 h2
    simp [get_time_series_data, h1, h2]
  · intro h1 h2 h3
    simp [get_time_series_data, h1, h2, h3]
  · intro h1
    simp [get_product_analysis_cached, h1]
  · intro h1 h2
    simp [get_product_analysis_cached, h1, h2]
  · intro h1 h2
    simp [get_product_analysis_cached, h1, h2]
  · intro h1
    simp [get_customer_analysis_cached, h1]
  · intro h1 h2
    simp [get_customer_analysis_cached, h1, h2]
  · intro h1 h2
    simp [get_customer_analysis_cached, h1, h2]

/-- C2 (witness): the fully failing backend satisfies the `exists`-error
hypothesis, and the time-series call with a key indeed raises. -/
theorem C2_witness :
    get_time_series_data (failingCache TSOutput) [mkSale "W1" 0 5] none none
      (fun d => d) (some "key") = .error () :=
  (C2_cache_error_propagates (failingCache TSOutput)
    (failingCache ProductAnalysis) (failingCache CustomerAnalysis)
    [mkSale "W1" 0 5] none none (fun d => d) "key").1 rfl

/-! ### Claim C3 — cache hits raise; latest writes and TTL expiry -/

/-- One sale on day 2, for the cache-state scenarios. -/
def c3Ledger : List Sale := [mkSale "I3" 2 30]

/-- The payload a previous run of the very same time-series query would
have cached: `computeTS` over `c3Ledger` (one row, so its repr carries a
`Timestamp`). -/
def c3Payload : TSOutput := computeTS c3Ledger none none (fun d => d)

/-- A cache holding `str(c3Payload)` under `"ts"`, written at time 0 with
the 1-hour TTL. -/
def c3State : CacheState TSOutput :=
  (emptyCacheState TSOutput).setex 0 3600 "ts" (strBytes c3Payload)

/-- C3 (counterexample): at time 10 the entry written at time 0 with TTL
3600 is present and unexpired, yet the time-series operation raises
(`.error`) instead of returning the stored payload: `eval` of the cached
bytes hits the unresolvable `Timestamp('…')`/`nan` tokens, and the
resulting `NameError` is re-raised. -/
theorem C3_counterexample :
    c3State.existsAt 10 "ts" = true ∧
    get_time_series_data (backendOf c3State 10) c3Ledger none none
      (fun d => d) (some "ts") = .error () :=
  ⟨rfl, rfl⟩

/-- C3 (amended): (1) while an entry for the key is present and unexpired,
the hit path reads the stored bytes but — every cached time-series payload
having at least one `Timestamp`-bearing row — `eval` raises `NameError`,
which is re-raised: the operation fails instead of returning the stored
payload; (2) on a hit the result is identical for any two ledgers — the
compute path (SQL query, resampling) is never invoked; (3) `setex`
followed by a lookup yields exactly the written bytes (the stored entry is
byte-identical to the latest write for that signature); (4) once the
entry's expiry has passed, the same lookup recomputes the payload from the
ledger and stores it afresh with the 1-hour TTL. -/
theorem C3_cache_semantics (st : CacheState TSOutput) (now ttl : ℕ)
    (k : String) (v : Bytes TSOutput) (en : CacheEntry TSOutput)
    (ledger ledger' : List Sale) (s e : Option ℕ) (bucketOf : ℕ → ℕ) :
    (st.lookup k = some en → now < en.expiry →
      en.value.data.rows.isEmpty = false →
      get_time_series_data (backendOf st now) ledger s e bucketOf (some k) =
        .error ()) ∧
    (st.lookup k = some en → now < en.expiry →
      get_time_series_data (backendOf st now) ledger s e bucketOf (some k) =
        get_time_series_data (backendOf st now) ledger' s e bucketOf (some k)) ∧
    ((st.setex now ttl k v).lookup k = some ⟨k, v, now + ttl⟩) ∧
    (st.lookup k = some en → en.expiry ≤ now →
      (scopeFilter s e ledger).isEmpty = false →
      get_time_series_data (backendOf st now) ledger s e bucketOf (some k) =
        .ok (computeTS ledger s e bucketOf,
          [(k, 3600, strBytes (computeTS ledger s e bucketOf))])) := by
  refine ⟨?_, ?_, ?_, ?_⟩
  · intro hlk hex hrows
    simp [get_time_series_data, backendOf, CacheState.existsAt,
      CacheState.getAt, evalTSBytes, tsEvalOk, hlk, hex, hrows]
  · intro hlk hex
    simp [get_time_series_data, backendOf, CacheState.existsAt,
      CacheState.getAt, hlk, hex]
  · unfold CacheState.lookup CacheState.setex
    rw [List.find?_cons_of_pos _ (by simp)]
  · intro hlk hex hne
    simp [get_time_series_data, backendOf, CacheState.existsAt, hlk,
      Nat.not_lt.mpr hex, hne]

/-- C3 (witness): at time 10 the unexpired `Timestamp`-bearing entry makes
the hit raise; at time 5000 the expired entry triggers recomputation plus
a fresh write. -/
theorem C3_witness :
    get_time_series_data (backendOf c3State 10) c3Ledger none none
      (fun d => d) (some "ts") = .error () ∧
    get_time_series_data (backendOf c3State 5000) c3Ledger none none
      (fun d => d) (some "ts") =
      .ok (computeTS c3Ledger none none (fun d => d),
        [("ts", 3600, strBytes (computeTS c3Ledger none none (fun d => d)))]) := by
  constructor
  · exact (C3_cache_semantics c3State 10 3600 "ts" (strBytes c3Payload)
      ⟨"ts", strBytes c3Payload, 3600⟩ c3Ledger c3Ledger none none
      (fun d => d)).1 (by decide) (by decide) (by decide)
  · exact (C3_cache_semantics c3State 5000 3600 "ts" (strBytes c3Payload)
      ⟨"ts", strBytes c3Payload, 3600⟩ c3Ledger c3Ledger none none
      (fun d => d)).2.2.2 (by decide) (by decide) (by decide)

/-! ### Claim C10 — a zero average rating is reported as null -/

/-- C10: in both the product and the customer analysis the reported
`avg_rating` is null exactly when the SQL average is null (no ratings in
the group) *or* exactly `0` — `float(r.avg_rating) if r.avg_rating else
None` conflates the two, so the output cannot distinguish them. -/
theorem C10_zero_rating_is_null (r : ProdSQLRow) (c : CustSQLRow) :
    ((productRowOf r).avg_rating = none ↔
      r.avg_rating = none ∨ r.avg_rating = some 0) ∧
    ((customerRowOf c).avg_rating = none ↔
      c.avg_rating = none ∨ c.avg_rating = some 0) := by
  constructor
  · cases h : r.avg_rating with
    | none => simp [productRowOf, truthyFloat, h]
    | some v =>
      by_cases hv : v = 0 <;> simp [productRowOf, truthyFloat, h, hv]
  · cases h : c.avg_rating with
    | none => simp [customerRowOf, truthyFloat, h]
    | some v =>
      by_cases hv : v = 0 <;> simp [customerRowOf, truthyFloat, h, hv]

/-- C10 (witness): a group whose SQL average rating is exactly `0` and a
group with no ratings are both reported with `avg_rating = null`. -/
theorem C10_witness :
    (productRowOf ⟨"Health", 0, 0, 0, 0, some 0⟩).avg_rating = none ∧
    (customerRowOf ⟨"Member", "Female", 0, 0, 0, 0, none⟩).avg_rating = none := by
  constructor
  · exact (C10_zero_rating_is_null ⟨"Health", 0, 0, 0, 0, some 0⟩
      ⟨"Member", "Female", 0, 0, 0, 0, none⟩).1.mpr (Or.inr rfl)
  · exact (C10_zero_rating_is_null ⟨"Health", 0, 0, 0, 0, some 0⟩
      ⟨"Member", "Female", 0, 0, 0, 0, none⟩).2.mpr (Or.inl rfl)

/-! ### Concrete raw batches and helpers for the ingestion claims -/

/-- A raw row with the given invoice id, day and numeric cells; all other
columns populated with benign valid values. -/
def mkRawRow (iid : String) (d : ℕ) (up qty tot : RawCell) : RawRow :=
  { invoice_id := some iid, branch := "A", city := "Yangon"
    customer_type := "Member", gender := "Female", product_line := "Health"
    unit_price := up, quantity := qty, total := tot
    date := some d, time := "10:00", payment := "Cash"
    gross_margin_percentage := some 30, gross_income := none, cogs := none
    rating := some 7 }

/-- A live, empty cache for the ingestion entry point. -/
def okProcCache : CacheIO ProcResult := backendOf (emptyCacheState ProcResult) 0

/-- Number of canonical rows produced by cleaning (0 when cleaning raises). -/
def cleanCount (df : RawBatch) : ℕ :=
  match cleanDataframe df with
  | .ok rs => rs.length
  | .error _ => 0

/-- The `total` column of the cleaned frame ([] when cleaning raises). -/
def cleanTotals (df : RawBatch) : List (Option ℚ) :=
  match cleanDataframe df with
  | .ok rs => rs.map (·.total)
  | .error _ => []

/-- The scenario batch of claim C6: `INV001`, `INV002`, and a second
`INV001` row that differs from the first (different quantity and total). -/
def c6Batch : RawBatch :=
  ⟨[mkRawRow "INV001" 0 (.num 10) (.num 2) (.num 20),
    mkRawRow "INV002" 1 (.num 20) (.num 3) (.num 60),
    mkRawRow "INV001" 2 (.num 10) (.num 5) (.num 50)], true, false, false⟩

/-- The cleaned rows of `c6Batch`. -/
def c6CleanRows : List CleanRow :=
  match cleanDataframe c6Batch with
  | .ok rs => rs
  | .error _ => []

/-- Membership is preserved through the `drop_duplicates` fold. -/
theorem mem_distinct_foldl {α : Type} [DecidableEq α] :
    ∀ (xs acc : List α) (x : α), x ∈ xs ∨ x ∈ acc →
      x ∈ xs.foldl (fun a y => if y ∈ a then a else a ++ [y]) acc := by
  intro xs
  induction xs with
  | nil =>
    intro acc x h
    simpa using h
  | cons y ys ih =>
    intro acc x h
    simp only [List.foldl_cons]
    apply ih
    rcases h with h | h
    · rcases List.mem_cons.mp h with rfl | h
      · right
        split
        · assumption
        · simp
      · exact Or.inl h
    · right
      split
      · exact h
      · exact List.mem_append_left _ h

/-- Validation fails whenever the cleaned rows repeat an invoice id. -/
theorem validate_fails_of_dup_ids (rows : List CleanRow)
    (hdup : ¬ (rows.map (·.invoice_id)).Nodup) :
    (validateDataframe rows).success = false := by
  unfold validateDataframe
  simp [hdup]

/-- On validation failure, `process_sales_data` returns the validation
dict as a batch-level result and the database is untouched. -/
theorem processSalesData_invalid (cache : CacheIO ProcResult) (df : RawBatch)
    (db : DB) (cf : Bool) (rows : List CleanRow)
    (hclean : cleanDataframe df = .ok rows)
    (hv : (validateDataframe rows).success = false) :
    processSalesData cache df db cf none =
      (.ok (.invalid (validateDataframe rows)), db) := by
  simp [processSalesData, process_sales_body, hclean, hv]

/-! ### Claim C6 — duplicate invoice ids -/

/-- C6 (counterexample): on the scenario batch (`INV001`, `INV002`,
`INV001`-dup with different data) cleaning keeps all 3 rows — the
de-duplication at line 66 is on full-row equality, not on `invoice_id` —
and ingestion then fails batch-wide: the `invoice_id_unique` expectation is
false, the whole batch is answered with a validation-failure result, no row
is persisted, and no per-row `"duplicate_invoice_id"` rejection exists
anywhere (the result carries no rejection reasons at all). -/
theorem C6_counterexample :
    cleanCount c6Batch = 3 ∧
    processSalesData okProcCache c6Batch ⟨[], []⟩ false none =
      (.ok (.invalid ⟨false, true, true, true, true, true, true, false⟩),
        ⟨[], []⟩) := by
  constructor
  · decide
  · rfl

/-- C6 (amended): cleaning silently drops only *fully identical* duplicate
rows, keeping the first occurrence (and reports no count); a repeated
`invoice_id` on a row that differs in any column survives cleaning and
causes a batch-level validation failure — `process_sales_data` returns the
validation dict with `success = false` and persists nothing — rather than
a per-row `"duplicate_invoice_id"` rejection. -/
theorem C6_dedup_is_full_row {α : Type} [DecidableEq α] (xs : List α) (x : α)
    (cache : CacheIO ProcResult) (df : RawBatch) (db : DB) (cf : Bool)
    (rows : List CleanRow) :
    (x ∈ xs → distinctKeys (xs ++ [x]) = distinctKeys xs) ∧
    (cleanDataframe df = .ok rows → ¬ (rows.map (·.invoice_id)).Nodup →
      (validateDataframe rows).success = false ∧
      processSalesData cache df db cf none =
        (.ok (.invalid (validateDataframe rows)), db)) := by
  constructor
  · intro hx
    unfold distinctKeys
    rw [List.foldl_append]
    simp only [List.foldl_cons, List.foldl_nil]
    rw [if_pos (mem_distinct_foldl xs [] x (Or.inl hx))]
  · intro hclean hdup
    have hv := validate_fails_of_dup_ids rows hdup
    exact ⟨hv, processSalesData_invalid cache df db cf rows hclean hv⟩

/-- C6 (witness): an exact duplicate is dropped; the differing `INV001`
duplicate of `c6Batch` makes validation fail with nothing persisted. -/
theorem C6_witness :
    distinctKeys ([1, 2] ++ [1]) = distinctKeys [1, 2] ∧
    (validateDataframe c6CleanRows).success = false ∧
    processSalesData okProcCache c6Batch ⟨[], []⟩ false none =
      (.ok (.invalid (validateDataframe c6CleanRows)), ⟨[], []⟩) := by
  refine ⟨(C6_dedup_is_full_row [1, 2] 1 okProcCache c6Batch ⟨[], []⟩ false
    c6CleanRows).1 (by decide), ?_⟩
  exact (C6_dedup_is_full_row [1, 2] 1 okProcCache c6Batch ⟨[], []⟩ false
    c6CleanRows).2 rfl (by decide)

/-! ### Claim C7 — derivation of missing totals -/

/-- A raw row with no total at all (`NaN` cell in a present column). -/
def c7RowMissingTotal : RawRow := mkRawRow "INV001" 0 (.num 10) (.num 2) .missing

/-- A raw row whose total is a non-numeric string. -/
def c7RowStrTotal : RawRow := mkRawRow "INV003" 1 (.num 10) (.num 2) (.str "n/a")

/-- C7 (code evaluated at the failing inputs): a row lacking a total
(`NaN`) is *dropped* by `dropna(subset=['total'])` at line 69 — before the
"Calculate missing totals" step at lines 78–79 can run — instead of
receiving `total = unit_price × quantity = 20`; a batch without a `total`
column at all (the input of the repo's own `test_clean_dataframe`) makes
cleaning raise `KeyError`; only a present-but-non-numeric total survives to
be coerced to `NaN` and then derived. -/
theorem C7_missing_total_dropped :
    cleanTotals ⟨[c7RowMissingTotal], true, false, false⟩ = [] ∧
    cleanDataframe ⟨[c7RowMissingTotal], false, false, false⟩ = .error () ∧
    cleanTotals ⟨[c7RowStrTotal], true, false, false⟩ = [some 20] := by
  refine ⟨by decide, rfl, by decide⟩

/-! ### Claim C8 — validation before write, all-or-nothing commit -/

/-- The records a successful ingestion of `df` persists ([] when cleaning
or conversion fails). -/
def ingestedRecords (df : RawBatch) : List SaleRec :=
  match cleanDataframe df with
  | .error _ => []
  | .ok rows =>
    match convertRows rows with
    | .error _ => []
    | .ok recs => recs

/-- The main flow, started on a database with no pending rows, either
commits exactly the converted batch or leaves the committed rows unchanged. -/
theorem process_body_committed (df : RawBatch) (c : List SaleRec) (cf : Bool)
    (ck : Option String) :
    (process_sales_body df ⟨c, []⟩ cf ck).2.committed = c ++ ingestedRecords df ∨
    (process_sales_body df ⟨c, []⟩ cf ck).2.committed = c := by
  unfold process_sales_body ingestedRecords
  cases hclean : cleanDataframe df with
  | error u => simp [hclean, DB.rollback]
  | ok rows =>
    cases hv : (validateDataframe rows).success with
    | false => simp [hclean, hv]
    | true =>
      cases hconv : convertRows rows with
      | error u => simp [hclean, hv, hconv, DB.rollback]
      | ok recs =>
        cases cf with
        | true => simp [hclean, hv, hconv, DB.bulkSaveObjects, DB.rollback]
        | false =>
          cases ck with
          | some k =>
            simp [hclean, hv, hconv, DB.bulkSaveObjects, DB.commit, DB.rollback]
          | none =>
            simp [hclean, hv, hconv, DB.bulkSaveObjects, DB.commit]

/-- C8: for every batch, cache, database without pending rows, commit
outcome and cache key, (1) the set of committed rows either grows by
exactly the converted validated batch or stays exactly unchanged — never a
partial write; (2) a validation failure returns the validation dict with
the database untouched (validation completes before any write); (3) a
cleaning failure raises with the database untouched. -/
theorem C8_all_or_nothing (cache : CacheIO ProcResult) (df : RawBatch)
    (db : DB) (cf : Bool) (k : Option String) (hp : db.pending = []) :
    ((processSalesData cache df db cf k).2.committed =
        db.committed ++ ingestedRecords df ∨
      (processSalesData cache df db cf k).2.committed = db.committed) ∧
    (∀ rows, cleanDataframe df = .ok rows →
      (validateDataframe rows).success = false →
      processSalesData cache df db cf none =
        (.ok (.invalid (validateDataframe rows)), db)) ∧
    (cleanDataframe df = .error () →
      processSalesData cache df db cf none = (.error (), db)) := by
  obtain ⟨c, p⟩ := db
  simp only [DB.pending] at hp
  subst hp
  refine ⟨?_, ?_, ?_⟩
  · unfold processSalesData
    cases k with
    | none => exact process_body_committed df c cf none
    | some key =>
      cases hq : cache.existsQ key with
      | error u => simp [hq, DB.rollback]
      | ok b =>
        cases b with
        | false => simpa [hq] using process_body_committed df c cf (some key)
        | true =>
          cases hg : cache.getQ key with
          | error u => simp [hq, hg, DB.rollback]
          | ok bytes => simp [hq, hg]
  · intro rows hclean hv
    exact processSalesData_invalid cache df ⟨c, []⟩ cf rows hclean hv
  · intro hclean
    simp [processSalesData, process_sales_body, hclean, DB.rollback]

/-- A fully valid two-row batch. -/
def c8Batch : RawBatch :=
  ⟨[mkRawRow "INV001" 0 (.num 10) (.num 2) (.num 20),
    mkRawRow "INV002" 1 (.num 20) (.num 3) (.num 60)], true, false, false⟩

/-- C8 (witness): ingesting the valid `c8Batch` into an empty database
satisfies the all-or-nothing property. -/
theorem C8_witness :
    (processSalesData okProcCache c8Batch ⟨[], []⟩ false none).2.committed =
        [] ++ ingestedRecords c8Batch ∨
      (processSalesData okProcCache c8Batch ⟨[], []⟩ false none).2.committed = [] :=
  (C8_all_or_nothing okProcCache c8Batch ⟨[], []⟩ false none rfl).1

end

end WalmartSales
